import Mathlib

/-!
Verification of the feature-derivation and inference core of
`predictor-backend/main.py` (Hybrid Price Predictor API).

The pure Python functions are embedded as Lean functions over exact
rationals (`ℚ`): `validate_ohlcv_data`, `create_features` (each derived
feature a named definition, as the Python locals), the `/predict`
orchestration `predict_price_movement`, and the `/retrain` state
transition `retrain_model`.  The process-wide globals `model`, `scaler`
and `model_loaded` become an explicit `ModelState` threaded through the
handlers.  The external collaborators (the fitted sklearn classifier, the
market-data fetch) are parameters: arbitrary functions supplied by the
caller, made concrete in the closed scenario theorems.
-/

/-- One OHLCV data point (`OHLCVData` in `main.py`): open, high, low,
close prices and traded volume, modelled as exact rationals. -/
structure OHLCVData where
  «open» : ℚ
  high : ℚ
  low : ℚ
  close : ℚ
  volume : ℚ
deriving DecidableEq

/-- The pydantic field constraints on `OHLCVData` (`gt=0` on the four
prices, `ge=0` on volume), enforced at the request boundary before the
validator runs. -/
def OHLCVData.domain_ok (d : OHLCVData) : Prop :=
  0 < d.«open» ∧ 0 < d.high ∧ 0 < d.low ∧ 0 < d.close ∧ 0 ≤ d.volume

/-- `validate_ohlcv_data` (main.py lines 80-88): logical consistency of a
single bar. -/
def validate_ohlcv_data (d : OHLCVData) : Bool :=
  if d.high < d.low then false
  else if d.high < d.«open» ∨ d.high < d.close then false
  else if d.low > d.«open» ∨ d.low > d.close then false
  else true

/-- `price_range` local of `create_features` (main.py line 154). -/
def price_range (d : OHLCVData) : ℚ := d.high - d.low

/-- `body_size` local of `create_features` (main.py line 155). -/
def body_size (d : OHLCVData) : ℚ := |d.close - d.«open»|

/-- `upper_shadow` local of `create_features` (main.py line 156). -/
def upper_shadow (d : OHLCVData) : ℚ := d.high - max d.«open» d.close

/-- `lower_shadow` local of `create_features` (main.py line 157). -/
def lower_shadow (d : OHLCVData) : ℚ := min d.«open» d.close - d.low

/-- `body_ratio` local of `create_features` (main.py line 160): guarded
division, 0 unless the denominator is positive. -/
def body_ratio (d : OHLCVData) : ℚ :=
  if price_range d > 0 then body_size d / price_range d else 0

/-- `upper_shadow_ratio` local of `create_features` (main.py line 161). -/
def upper_shadow_ratio (d : OHLCVData) : ℚ :=
  if price_range d > 0 then upper_shadow d / price_range d else 0

/-- `lower_shadow_ratio` local of `create_features` (main.py line 162). -/
def lower_shadow_ratio (d : OHLCVData) : ℚ :=
  if price_range d > 0 then lower_shadow d / price_range d else 0

/-- `volume_ratio` local of `create_features` (main.py line 165). -/
def volume_ratio (d : OHLCVData) : ℚ :=
  if d.high + d.low + d.close > 0 then d.volume / (d.high + d.low + d.close) else 0

/-- `price_change` local of `create_features` (main.py line 168). -/
def price_change (d : OHLCVData) : ℚ :=
  if d.«open» > 0 then (d.close - d.«open») / d.«open» else 0

/-- `rsi_approx` local of `create_features` (main.py lines 171-172):
`50 + price_change * 10` clamped into `[0, 100]`. -/
def rsi_approx (d : OHLCVData) : ℚ :=
  max 0 (min 100 (50 + price_change d * 10))

/-- `create_features` (main.py lines 150-212): the positional
15-feature vector and the name-to-value diagnostics map built from the
same locals. -/
def create_features (d : OHLCVData) : List ℚ × List (String × ℚ) :=
  ([d.«open», d.high, d.low, d.close, d.volume, price_range d, body_size d,
    upper_shadow d, lower_shadow d, body_ratio d, upper_shadow_ratio d,
    lower_shadow_ratio d, volume_ratio d, price_change d, rsi_approx d],
   [("open", d.«open»), ("high", d.high), ("low", d.low), ("close", d.close),
    ("volume", d.volume), ("price_range", price_range d),
    ("body_size", body_size d), ("upper_shadow", upper_shadow d),
    ("lower_shadow", lower_shadow d), ("body_ratio", body_ratio d),
    ("upper_shadow_ratio", upper_shadow_ratio d),
    ("lower_shadow_ratio", lower_shadow_ratio d),
    ("volume_ratio", volume_ratio d), ("price_change", price_change d),
    ("rsi_approx", rsi_approx d)])

/-- Sample scenario observation of spec section 8:
`(open=100, high=105, low=98, close=102, volume=50000)`. -/
def obsScenario : OHLCVData :=
  { «open» := 100, high := 105, low := 98, close := 102, volume := 50000 }

/-- The failure conditions the handlers of `main.py` raise as
`HTTPException`s, one constructor per distinct `detail`/status family:
503 "Model not loaded" (line 350), 400 "Either 'ohlcv_data' or 'symbol'
must be provided" (lines 370-373), 400 "Invalid OHLCV data" (lines
377-380), 404/400 fetch failures (`fetch_stock_data`), and the catch-all
500 "Prediction failed" (lines 413-415) that wraps any exception raised
inside the pipeline, the sklearn feature-count mismatch among them. -/
inductive PredErr where
  | modelNotLoaded
  | missingInput
  | invalidOHLCV
  | fetchFailed
  | internalError
deriving DecidableEq

/-- The HTTP status code each condition is served with in `main.py`. -/
def PredErr.status_code : PredErr → Nat
  | .modelNotLoaded => 503
  | .missingInput => 400
  | .invalidOHLCV => 400
  | .fetchFailed => 404
  | .internalError => 500

/-- The stages of one inference call, after the spec's state machine;
`predict_price_movement` reports which ones the call entered, in order. -/
inductive Stage where
  | received
  | validated
  | featureExtracted
  | scaled
  | classified
  | bucketed
  | responded
  | rejected
  | failed
deriving DecidableEq

/-- The process-wide globals of `main.py` (lines 42-44): `model_loaded`,
and the fitted pair — the scaler's per-feature `mean_` and `scale_`
arrays, and the fitted classifier, opaque to this spec, as a function
from a scaled vector to a label and the probability pair
(`model.predict` / `model.predict_proba` on one row). -/
structure ModelState where
  model_loaded : Bool
  scaler_mean : List ℚ
  scaler_scale : List ℚ
  model : List ℚ → Nat × ℚ × ℚ

/-- `HybridPredictionRequest` (main.py lines 60-68). -/
structure HybridPredictionRequest where
  ohlcv_data : Option OHLCVData
  symbol : Option String
  timezone : Option String := some "UTC"
  market : Option String := none
deriving DecidableEq

/-- `PredictionResponse` (main.py lines 70-78), without the unused
`error` field the handler never sets on success. -/
structure PredictionResponse where
  prediction : Nat
  probability : ℚ
  confidence : String
  features_used : List (String × ℚ)
  data_source : String
  symbol : Option String
deriving DecidableEq

/-- The confidence bucketing of `predict_price_movement`
(main.py lines 395-400). -/
def calculate_confidence (max_prob : ℚ) : String :=
  if max_prob ≥ 0.8 then "High"
  else if max_prob ≥ 0.6 then "Medium"
  else "Low"

/-- Modelled from the spec: the Scaler Adapter of section 4.3 —
`scaler.transform` at main.py line 386 is a call into sklearn's
`StandardScaler`, whose body is not repository code.  Per the spec it
applies `normalized[i] = (raw[i] - mean[i]) / scale[i]` positionally and
raises a feature-count mismatch error when the parameter arrays and the
input vector differ in length; it has no other failure mode. -/
def scaler_transform (mean scale v : List ℚ) : Except String (List ℚ) :=
  if v.length = mean.length ∧ v.length = scale.length then
    Except.ok (List.zipWith (fun x ms => (x - ms.1) / ms.2) v (mean.zip scale))
  else
    Except.error "X has a different number of features than StandardScaler is expecting"

/-- The body of `/predict` from validation onward (main.py lines
375-409): validate, extract features, scale, classify, bucket, assemble
the response.  A scaler mismatch raises inside the `try` and is served
as the 500 catch-all (lines 411-415).  Returns the outcome and the list
of pipeline stages the call entered. -/
def run_inference (st : ModelState) (d : OHLCVData) (src : String)
    (sym : Option String) : Except PredErr PredictionResponse × List Stage :=
  if validate_ohlcv_data d = false then
    (Except.error PredErr.invalidOHLCV, [Stage.received, Stage.rejected])
  else
    let fv := (create_features d).1
    let fd := (create_features d).2
    match scaler_transform st.scaler_mean st.scaler_scale fv with
    | Except.error _ =>
        (Except.error PredErr.internalError,
         [Stage.received, Stage.validated, Stage.featureExtracted, Stage.failed])
    | Except.ok xs =>
        let r := st.model xs
        let max_prob := max r.2.1 r.2.2
        (Except.ok
          { prediction := r.1
            probability := max_prob
            confidence := calculate_confidence max_prob
            features_used := fd
            data_source := src
            symbol := sym },
         [Stage.received, Stage.validated, Stage.featureExtracted, Stage.scaled,
          Stage.classified, Stage.bucketed, Stage.responded])

/-- `predict_price_movement` (main.py lines 333-415).  The market-data
fetch is the excluded collaborator, passed as a function that returns an
observation or a failure condition. -/
def predict_price_movement (st : ModelState)
    (fetch : String → Except PredErr OHLCVData)
    (req : HybridPredictionRequest) :
    Except PredErr PredictionResponse × List Stage :=
  if st.model_loaded = false then
    (Except.error PredErr.modelNotLoaded, [Stage.received, Stage.failed])
  else
    match req.ohlcv_data with
    | some d => run_inference st d "manual" none
    | none =>
        match req.symbol with
        | some s =>
            match fetch s.trim.toUpper with
            | Except.error e => (Except.error e, [Stage.received, Stage.failed])
            | Except.ok d => run_inference st d "symbol" (some s.trim.toUpper)
        | none =>
            (Except.error PredErr.missingInput, [Stage.received, Stage.rejected])

/-- The body of `/retrain` (main.py lines 417-437): sets the global
`model_loaded` to `False`, then `create_demo_model()` installs a freshly
fitted pair into the globals `model` and `scaler` (its synthetic data
generation and sklearn fitting are external; the resulting fitted pair
is the parameter), and the handler answers with the success message and
the current `model_loaded` flag.  Nothing sets `model_loaded` back. -/
def retrain_model (st : ModelState) (demo_mean demo_scale : List ℚ)
    (demo_model : List ℚ → Nat × ℚ × ℚ) : ModelState × (String × Bool) :=
  let st1 : ModelState := { st with model_loaded := false }
  let st2 : ModelState :=
    { st1 with scaler_mean := demo_mean, scaler_scale := demo_scale,
               model := demo_model }
  (st2, ("Model retrained successfully", st2.model_loaded))

/-- The observations one request feeds to the pipeline, per the input
branching of `predict_price_movement` (main.py lines 352-373): the
manual `ohlcv_data` when present, otherwise the single fetched bar for
`symbol`, otherwise none. -/
def request_observations (fetch : String → Except PredErr OHLCVData)
    (req : HybridPredictionRequest) : List OHLCVData :=
  match req.ohlcv_data with
  | some d => [d]
  | none =>
      match req.symbol with
      | some s =>
          match fetch s.trim.toUpper with
          | Except.ok d => [d]
          | Except.error _ => []
      | none => []

/-- Consecutive single-item calls against the same shared model state:
`predict_price_movement` reads the globals and never assigns them, so
the state is returned unchanged. -/
def handle_requests (st : ModelState)
    (fetch : String → Except PredErr OHLCVData) :
    List HybridPredictionRequest →
      List (Except PredErr PredictionResponse) × ModelState
  | [] => ([], st)
  | r :: rs =>
      let res := (predict_price_movement st fetch r).1
      let rest := handle_requests st fetch rs
      (res :: rest.1, rest.2)

/-- An identity fitted scaler: 15 means of 0 and 15 scales of 1. -/
def identity_mean : List ℚ := List.replicate 15 0

/-- Scales of the identity fitted scaler. -/
def identity_scale : List ℚ := List.replicate 15 1

/-- A classifier that always answers label 1 with probabilities
`(0.1, 0.9)`, as in the spec's scenario. -/
def constant_model : List ℚ → Nat × ℚ × ℚ := fun _ => (1, (1 / 10, 9 / 10))

/-- A loaded state pairing the identity scaler with `constant_model`. -/
def stScenario : ModelState :=
  { model_loaded := true, scaler_mean := identity_mean,
    scaler_scale := identity_scale, model := constant_model }

/-- A fetch collaborator that always fails (the scenario requests are
manual, so it is never consulted). -/
def fetch_unavailable : String → Except PredErr OHLCVData :=
  fun _ => Except.error PredErr.fetchFailed

/-- The manual request carrying one observation. -/
def manual_request (d : OHLCVData) : HybridPredictionRequest :=
  { ohlcv_data := some d, symbol := none }

/-- A second well-formed observation, for the batch counterexample. -/
def obsSecond : OHLCVData :=
  { «open» := 50, high := 55, low := 48, close := 52, volume := 1000 }

/-- An inconsistent observation with positive prices and `high < low`
(the spec's `high=10, low=20` scenario). -/
def obsInvalid : OHLCVData :=
  { «open» := 100, high := 10, low := 20, close := 15, volume := 0 }

/-- A degenerate observation exercising every division guard at once:
`high = low` (zero price range), `high + low + close = 0`, `open ≤ 0`. -/
def obsDegenerate : OHLCVData :=
  { «open» := -1, high := 0, low := 0, close := 0, volume := 7 }

/-- A loaded state whose fitted scaler has length 1, mismatching the
15-feature vector. -/
def stShortScaler : ModelState :=
  { model_loaded := true, scaler_mean := [0], scaler_scale := [1],
    model := constant_model }

/-! ## Helper lemmas -/

/-- The validator passes exactly when the five bar-consistency
inequalities hold. -/
theorem validate_eq_true_iff (d : OHLCVData) :
    validate_ohlcv_data d = true ↔
      d.low ≤ d.high ∧ d.«open» ≤ d.high ∧ d.close ≤ d.high ∧
      d.low ≤ d.«open» ∧ d.low ≤ d.close := by
  unfold validate_ohlcv_data
  split_ifs with h1 h2 h3
  · simp only [Bool.false_eq_true, false_iff]
    intro h; exact absurd h.1 (not_le.mpr h1)
  · simp only [Bool.false_eq_true, false_iff]
    intro h
    rcases h2 with h2 | h2
    · exact absurd h.2.1 (not_le.mpr h2)
    · exact absurd h.2.2.1 (not_le.mpr h2)
  · simp only [Bool.false_eq_true, false_iff]
    intro h
    rcases h3 with h3 | h3
    · exact absurd h3 (not_lt.mpr h.2.2.2.1)
    · exact absurd h3 (not_lt.mpr h.2.2.2.2)
  · constructor
    · intro _
      push_neg at h1 h2 h3
      exact ⟨h1, h2.1, h2.2, h3.1, h3.2⟩
    · intro _; rfl

/-- The feature vector has 15 entries. -/
theorem create_features_fst_length (d : OHLCVData) :
    (create_features d).1.length = 15 := rfl

/-- The scenario observation passes the validator. -/
theorem validate_obsScenario : validate_ohlcv_data obsScenario = true := by
  norm_num [validate_ohlcv_data, obsScenario]

/-! ## C3 -/

/-- C3: on `[0,1]` the bucketer answers High iff `max_prob ≥ 0.8`, Medium
iff `0.6 ≤ max_prob < 0.8`, Low iff `max_prob < 0.6`; one of the three
always applies, and the boundaries `0.8`, `0.6` land in High and Medium. -/
theorem C3_confidence_tiers (p : ℚ) (h0 : 0 ≤ p) (h1 : p ≤ 1) :
    (calculate_confidence p = "High" ↔ 0.8 ≤ p) ∧
    (calculate_confidence p = "Medium" ↔ 0.6 ≤ p ∧ p < 0.8) ∧
    (calculate_confidence p = "Low" ↔ p < 0.6) ∧
    (calculate_confidence p = "High" ∨ calculate_confidence p = "Medium" ∨
      calculate_confidence p = "Low") ∧
    calculate_confidence (0.8 : ℚ) = "High" ∧
    calculate_confidence (0.6 : ℚ) = "Medium" := by
  have hb1 : calculate_confidence (0.8 : ℚ) = "High" := by
    norm_num [calculate_confidence]
  have hb2 : calculate_confidence (0.6 : ℚ) = "Medium" := by
    norm_num [calculate_confidence]
  have h68 : (0.6 : ℚ) < 0.8 := by norm_num
  refine ⟨?_, ?_, ?_, ?_, hb1, hb2⟩
  · unfold calculate_confidence
    split_ifs with ha hb
    · exact iff_of_true rfl ha
    · exact iff_of_false (by decide) ha
    · exact iff_of_false (by decide) ha
  · unfold calculate_confidence
    split_ifs with ha hb
    · exact iff_of_false (by decide) (fun h => not_le.mpr h.2 ha)
    · exact iff_of_true rfl ⟨hb, lt_of_not_ge ha⟩
    · exact iff_of_false (by decide) (fun h => hb h.1)
  · unfold calculate_confidence
    split_ifs with ha hb
    · exact iff_of_false (by decide) (fun h => not_le.mpr (h.trans h68) ha)
    · exact iff_of_false (by decide) (fun h => not_le.mpr h hb)
    · exact iff_of_true rfl (lt_of_not_ge hb)
  · unfold calculate_confidence
    split_ifs
    · exact Or.inl rfl
    · exact Or.inr (Or.inl rfl)
    · exact Or.inr (Or.inr rfl)

/-- C3 witness at `max_prob = 0.7`. -/
theorem C3_confidence_tiers_witness :
    ((0 : ℚ) ≤ 0.7 ∧ (0.7 : ℚ) ≤ 1) ∧
    ((calculate_confidence 0.7 = "High" ↔ (0.8 : ℚ) ≤ 0.7) ∧
     (calculate_confidence 0.7 = "Medium" ↔
        (0.6 : ℚ) ≤ 0.7 ∧ (0.7 : ℚ) < 0.8) ∧
     (calculate_confidence 0.7 = "Low" ↔ (0.7 : ℚ) < 0.6) ∧
     (calculate_confidence 0.7 = "High" ∨ calculate_confidence 0.7 = "Medium" ∨
       calculate_confidence 0.7 = "Low") ∧
     calculate_confidence (0.8 : ℚ) = "High" ∧
     calculate_confidence (0.6 : ℚ) = "Medium") :=
  ⟨⟨by norm_num, by norm_num⟩,
    C3_confidence_tiers 0.7 (by norm_num) (by norm_num)⟩

/-! ## C4 -/

/-- C4: for observations in the domain ranges, the validator fails exactly
on the five inconsistency conditions, and whenever it fails the pipeline
answers the validation rejection without entering feature extraction,
scaling or classification. -/
theorem C4_validator_characterization (d : OHLCVData) (st : ModelState)
    (fetch : String → Except PredErr OHLCVData)
    (hdom : OHLCVData.domain_ok d) :
    (validate_ohlcv_data d = false ↔
      d.high < d.low ∨ d.high < d.«open» ∨ d.high < d.close ∨
      d.low > d.«open» ∨ d.low > d.close) ∧
    (validate_ohlcv_data d = false →
      Stage.featureExtracted ∉
        (predict_price_movement st fetch (manual_request d)).2 ∧
      Stage.scaled ∉ (predict_price_movement st fetch (manual_request d)).2 ∧
      Stage.classified ∉
        (predict_price_movement st fetch (manual_request d)).2 ∧
      (st.model_loaded = true →
        (predict_price_movement st fetch (manual_request d)).1 =
          Except.error PredErr.invalidOHLCV)) := by
  constructor
  · constructor
    · intro hf
      by_contra hnone
      push_neg at hnone
      have ht := (validate_eq_true_iff d).mpr
        ⟨hnone.1, hnone.2.1, hnone.2.2.1, hnone.2.2.2.1, hnone.2.2.2.2⟩
      rw [hf] at ht
      exact Bool.false_ne_true ht
    · intro hdisj
      cases hb : validate_ohlcv_data d
      · rfl
      · exfalso
        have ht := (validate_eq_true_iff d).mp hb
        rcases hdisj with h | h | h | h | h
        · exact absurd ht.1 (not_le.mpr h)
        · exact absurd ht.2.1 (not_le.mpr h)
        · exact absurd ht.2.2.1 (not_le.mpr h)
        · exact absurd ht.2.2.2.1 (not_le.mpr h)
        · exact absurd ht.2.2.2.2 (not_le.mpr h)
  · intro hf
    have hcase : predict_price_movement st fetch (manual_request d) =
        if st.model_loaded = false then
          (Except.error PredErr.modelNotLoaded, [Stage.received, Stage.failed])
        else
          (Except.error PredErr.invalidOHLCV,
           [Stage.received, Stage.rejected]) := by
      simp only [predict_price_movement, manual_request]
      split_ifs with h
      · rfl
      · simp [run_inference, hf]
    rw [hcase]
    split_ifs with h
    · refine ⟨by decide, by decide, by decide, fun hml => ?_⟩
      rw [h] at hml
      exact absurd hml Bool.false_ne_true
    · exact ⟨by decide, by decide, by decide, fun _ => rfl⟩

/-- C4 witness: the spec's `high=10, low=20` scenario (all prices
positive) at a loaded state. -/
theorem C4_validator_characterization_witness :
    OHLCVData.domain_ok obsInvalid ∧
    ((validate_ohlcv_data obsInvalid = false ↔
        obsInvalid.high < obsInvalid.low ∨
        obsInvalid.high < obsInvalid.«open» ∨
        obsInvalid.high < obsInvalid.close ∨
        obsInvalid.low > obsInvalid.«open» ∨
        obsInvalid.low > obsInvalid.close) ∧
     (validate_ohlcv_data obsInvalid = false →
       Stage.featureExtracted ∉
         (predict_price_movement stScenario fetch_unavailable
           (manual_request obsInvalid)).2 ∧
       Stage.scaled ∉
         (predict_price_movement stScenario fetch_unavailable
           (manual_request obsInvalid)).2 ∧
       Stage.classified ∉
         (predict_price_movement stScenario fetch_unavailable
           (manual_request obsInvalid)).2 ∧
       (stScenario.model_loaded = true →
         (predict_price_movement stScenario fetch_unavailable
             (manual_request obsInvalid)).1 =
           Except.error PredErr.invalidOHLCV))) :=
  ⟨by norm_num [OHLCVData.domain_ok, obsInvalid],
   C4_validator_characterization obsInvalid stScenario fetch_unavailable
     (by norm_num [OHLCVData.domain_ok, obsInvalid])⟩

/-! ## C5 -/

/-- C5: each guarded division yields 0 whenever its denominator is not
positive: the three shadow/body ratios when `price_range ≤ 0` (so in
particular when `high = low`), `volume_ratio` when
`high + low + close ≤ 0`, and `price_change` when `open ≤ 0`. -/
theorem C5_division_guards (d : OHLCVData) :
    (price_range d ≤ 0 →
      body_ratio d = 0 ∧ upper_shadow_ratio d = 0 ∧
        lower_shadow_ratio d = 0) ∧
    (d.high = d.low →
      body_ratio d = 0 ∧ upper_shadow_ratio d = 0 ∧
        lower_shadow_ratio d = 0) ∧
    (d.high + d.low + d.close ≤ 0 → volume_ratio d = 0) ∧
    (d.«open» ≤ 0 → price_change d = 0) := by
  have key : price_range d ≤ 0 →
      body_ratio d = 0 ∧ upper_shadow_ratio d = 0 ∧
        lower_shadow_ratio d = 0 := by
    intro h
    refine ⟨?_, ?_, ?_⟩
    · unfold body_ratio
      exact if_neg (not_lt.mpr h)
    · unfold upper_shadow_ratio
      exact if_neg (not_lt.mpr h)
    · unfold lower_shadow_ratio
      exact if_neg (not_lt.mpr h)
  refine ⟨key, fun h => key ?_, fun h => ?_, fun h => ?_⟩
  · rw [price_range, h, sub_self]
  · unfold volume_ratio
    exact if_neg (not_lt.mpr h)
  · unfold price_change
    exact if_neg (not_lt.mpr h)

/-- C5 witness: `obsDegenerate` makes every denominator nonpositive. -/
theorem C5_division_guards_witness :
    (price_range obsDegenerate ≤ 0 ∧
      (body_ratio obsDegenerate = 0 ∧ upper_shadow_ratio obsDegenerate = 0 ∧
        lower_shadow_ratio obsDegenerate = 0)) ∧
    (obsDegenerate.high + obsDegenerate.low + obsDegenerate.close ≤ 0 ∧
      volume_ratio obsDegenerate = 0) ∧
    (obsDegenerate.«open» ≤ 0 ∧ price_change obsDegenerate = 0) :=
  ⟨⟨by norm_num [price_range, obsDegenerate],
    (C5_division_guards obsDegenerate).1
      (by norm_num [price_range, obsDegenerate])⟩,
   ⟨by norm_num [obsDegenerate],
    (C5_division_guards obsDegenerate).2.2.1 (by norm_num [obsDegenerate])⟩,
   ⟨by norm_num [obsDegenerate],
    (C5_division_guards obsDegenerate).2.2.2 (by norm_num [obsDegenerate])⟩⟩

/-! ## C6 -/

/-- C6: `rsi_approx` is the clamp of `50 + price_change·10` into
`[0, 100]`, hence always within those bounds. -/
theorem C6_rsi_clamped (d : OHLCVData) :
    rsi_approx d = max 0 (min 100 (50 + price_change d * 10)) ∧
    0 ≤ rsi_approx d ∧ rsi_approx d ≤ 100 := by
  refine ⟨rfl, le_max_left _ _, ?_⟩
  unfold rsi_approx
  exact max_le (by norm_num) (min_le_left _ _)

/-! ## C7 -/

/-- C7: the feature vector lists exactly the 15 features in the fixed
order, and the diagnostics map has the same 15 names and the same values
in the same order. -/
theorem C7_feature_vector_shape (d : OHLCVData) :
    (create_features d).1 =
      [d.«open», d.high, d.low, d.close, d.volume, price_range d,
       body_size d, upper_shadow d, lower_shadow d, body_ratio d,
       upper_shadow_ratio d, lower_shadow_ratio d, volume_ratio d,
       price_change d, rsi_approx d] ∧
    (create_features d).1.length = 15 ∧
    (create_features d).2.length = 15 ∧
    (create_features d).2.map Prod.fst =
      ["open", "high", "low", "close", "volume", "price_range", "body_size",
       "upper_shadow", "lower_shadow", "body_ratio", "upper_shadow_ratio",
       "lower_shadow_ratio", "volume_ratio", "price_change", "rsi_approx"] ∧
    (create_features d).2.map Prod.snd = (create_features d).1 :=
  ⟨rfl, rfl, rfl, rfl, rfl⟩

/-! ## C10 -/

/-- C10: body, upper shadow and lower shadow always partition the price
range; with a positive range and a validated bar the three ratios are
each in `[0,1]` and sum to 1. -/
theorem C10_range_decomposition (d : OHLCVData) :
    body_size d + upper_shadow d + lower_shadow d = price_range d ∧
    (0 < price_range d → validate_ohlcv_data d = true →
      body_ratio d + upper_shadow_ratio d + lower_shadow_ratio d = 1 ∧
      0 ≤ body_ratio d ∧ body_ratio d ≤ 1 ∧
      0 ≤ upper_shadow_ratio d ∧ upper_shadow_ratio d ≤ 1 ∧
      0 ≤ lower_shadow_ratio d ∧ lower_shadow_ratio d ≤ 1) := by
  have hsum : body_size d + upper_shadow d + lower_shadow d = price_range d := by
    rcases le_total d.«open» d.close with h | h
    · rw [body_size, upper_shadow, lower_shadow, price_range,
        abs_of_nonneg (by linarith : (0 : ℚ) ≤ d.close - d.«open»),
        max_eq_right h, min_eq_left h]
      ring
    · rw [body_size, upper_shadow, lower_shadow, price_range,
        abs_of_nonpos (by linarith : d.close - d.«open» ≤ 0),
        max_eq_left h, min_eq_right h]
      ring
  refine ⟨hsum, fun hpr hval => ?_⟩
  have hv := (validate_eq_true_iff d).mp hval
  have hbr : body_ratio d = body_size d / price_range d := by
    unfold body_ratio; exact if_pos hpr
  have hur : upper_shadow_ratio d = upper_shadow d / price_range d := by
    unfold upper_shadow_ratio; exact if_pos hpr
  have hlr : lower_shadow_ratio d = lower_shadow d / price_range d := by
    unfold lower_shadow_ratio; exact if_pos hpr
  have hbs0 : 0 ≤ body_size d := abs_nonneg _
  have hus0 : 0 ≤ upper_shadow d := by
    rw [upper_shadow, sub_nonneg]
    exact max_le hv.2.1 hv.2.2.1
  have hls0 : 0 ≤ lower_shadow d := by
    rw [lower_shadow, sub_nonneg]
    exact le_min hv.2.2.2.1 hv.2.2.2.2
  have hbs1 : body_size d ≤ price_range d := by linarith
  have hus1 : upper_shadow d ≤ price_range d := by linarith
  have hls1 : lower_shadow d ≤ price_range d := by linarith
  rw [hbr, hur, hlr]
  refine ⟨?_, div_nonneg hbs0 hpr.le, (div_le_one hpr).mpr hbs1,
    div_nonneg hus0 hpr.le, (div_le_one hpr).mpr hus1,
    div_nonneg hls0 hpr.le, (div_le_one hpr).mpr hls1⟩
  rw [div_add_div_same, div_add_div_same, hsum, div_self hpr.ne']

/-- C10 witness at the scenario observation (range 7 > 0, validated). -/
theorem C10_range_decomposition_witness :
    0 < price_range obsScenario ∧ validate_ohlcv_data obsScenario = true ∧
    (body_ratio obsScenario + upper_shadow_ratio obsScenario +
        lower_shadow_ratio obsScenario = 1 ∧
      0 ≤ body_ratio obsScenario ∧ body_ratio obsScenario ≤ 1 ∧
      0 ≤ upper_shadow_ratio obsScenario ∧ upper_shadow_ratio obsScenario ≤ 1 ∧
      0 ≤ lower_shadow_ratio obsScenario ∧ lower_shadow_ratio obsScenario ≤ 1) :=
  ⟨by norm_num [price_range, obsScenario],
   by norm_num [validate_ohlcv_data, obsScenario],
   (C10_range_decomposition obsScenario).2
     (by norm_num [price_range, obsScenario])
     (by norm_num [validate_ohlcv_data, obsScenario])⟩

/-! ## C1 -/

/-- C1 (divergence witness): from a loaded state, `/retrain` answers
"Model retrained successfully" yet reports and leaves `model_loaded =
false`, so the next inference call still fails with the
model-unavailable condition before any feature extraction — the
retrain path never sets `model_loaded` back to true. -/
theorem C1_retrain_leaves_model_unavailable :
    (retrain_model stScenario identity_mean identity_scale
        constant_model).2.1 = "Model retrained successfully" ∧
    (retrain_model stScenario identity_mean identity_scale
        constant_model).2.2 = false ∧
    (retrain_model stScenario identity_mean identity_scale
        constant_model).1.model_loaded = false ∧
    (predict_price_movement
        (retrain_model stScenario identity_mean identity_scale
          constant_model).1
        fetch_unavailable (manual_request obsScenario)).1 =
      Except.error PredErr.modelNotLoaded ∧
    Stage.featureExtracted ∉
      (predict_price_movement
        (retrain_model stScenario identity_mean identity_scale
          constant_model).1
        fetch_unavailable (manual_request obsScenario)).2 :=
  ⟨rfl, rfl, rfl, rfl, by decide⟩

/-! ## C2 -/

/-- C2: the spec's scenario observation yields the stated feature values,
and with the identity scaler and the constant (label 1, probabilities
(0.1, 0.9)) classifier the pipeline answers label 1, probability 0.9,
confidence High. -/
theorem C2_scenario_inference :
    price_range obsScenario = 7 ∧ body_size obsScenario = 2 ∧
    upper_shadow obsScenario = 3 ∧ lower_shadow obsScenario = 2 ∧
    body_ratio obsScenario = 2 / 7 ∧
    volume_ratio obsScenario = 50000 / 305 ∧
    price_change obsScenario = 2 / 100 ∧
    rsi_approx obsScenario = 502 / 10 ∧
    (predict_price_movement stScenario fetch_unavailable
        (manual_request obsScenario)).1 =
      Except.ok
        { prediction := 1, probability := 9 / 10, confidence := "High",
          features_used := (create_features obsScenario).2,
          data_source := "manual", symbol := none } := by
  refine ⟨by norm_num [price_range, obsScenario],
    by norm_num [body_size, obsScenario],
    by norm_num [upper_shadow, obsScenario, max_def],
    by norm_num [lower_shadow, obsScenario, min_def],
    by norm_num [body_ratio, body_size, price_range, obsScenario],
    by norm_num [volume_ratio, obsScenario],
    by norm_num [price_change, obsScenario],
    by norm_num [rsi_approx, price_change, obsScenario, max_def, min_def],
    ?_⟩
  norm_num [predict_price_movement, stScenario, run_inference, manual_request,
    validate_ohlcv_data, obsScenario, scaler_transform, identity_mean,
    identity_scale, constant_model, calculate_confidence, create_features,
    List.replicate, List.zipWith, max_def, min_def]

/-! ## C8 -/

/-- C8 counterexample: no request of the pipeline's entry type carries
the two-observation batch `[obsScenario, obsSecond]` — a request feeds
at most one observation to the pipeline, so there is no batch mode. -/
theorem C8_no_batch_request :
    ¬ ∃ req : HybridPredictionRequest,
        request_observations fetch_unavailable req =
          [obsScenario, obsSecond] := by
  rintro ⟨⟨od, sym, tz, mk⟩, h⟩
  cases od with
  | some d => simp [request_observations] at h
  | none =>
      cases sym with
      | some s => simp [request_observations, fetch_unavailable] at h
      | none => simp [request_observations] at h

/-- C8 (amended): every request supplies at most one observation, and
consecutive single-item calls on the same shared state are independent:
the state is returned unchanged and the per-item results equal the two
independent single-item calls. -/
theorem C8_single_item_independent_calls (st : ModelState)
    (fetch : String → Except PredErr OHLCVData)
    (a b : HybridPredictionRequest) :
    (request_observations fetch a).length ≤ 1 ∧
    (handle_requests st fetch [a, b]).1 =
      [(predict_price_movement st fetch a).1,
       (predict_price_movement st fetch b).1] ∧
    (handle_requests st fetch [a, b]).2 = st := by
  refine ⟨?_, rfl, rfl⟩
  rcases a with ⟨od, sym, tz, mk⟩
  cases od with
  | some d => simp [request_observations]
  | none =>
      cases sym with
      | some s =>
          cases hf : fetch s.trim.toUpper with
          | error e => simp [request_observations, hf]
          | ok d => simp [request_observations, hf]
      | none => simp [request_observations]

/-! ## C9 -/

/-- C9: the Scaler Adapter fails exactly on a length mismatch between the
parameter arrays and the feature vector (never truncating or padding: on
success the output keeps the input's length), and in the pipeline a
fitted/runtime mismatch surfaces as the internal 500 condition, distinct
from the user-facing 400 validation rejection. -/
theorem C9_scaler_mismatch (mean scale v : List ℚ) (st : ModelState)
    (fetch : String → Except PredErr OHLCVData) (d : OHLCVData)
    (hload : st.model_loaded = true)
    (hval : validate_ohlcv_data d = true)
    (hmis : st.scaler_mean.length ≠ 15) :
    (¬ (v.length = mean.length ∧ v.length = scale.length) →
      scaler_transform mean scale v =
        Except.error
          "X has a different number of features than StandardScaler is expecting") ∧
    (v.length = mean.length ∧ v.length = scale.length →
      ∃ w, scaler_transform mean scale v = Except.ok w ∧
        w.length = v.length) ∧
    (predict_price_movement st fetch (manual_request d)).1 =
      Except.error PredErr.internalError ∧
    PredErr.internalError ≠ PredErr.invalidOHLCV ∧
    PredErr.internalError.status_code = 500 ∧
    PredErr.invalidOHLCV.status_code = 400 := by
  refine ⟨fun h => ?_, fun h => ?_, ?_, by decide, rfl, rfl⟩
  · unfold scaler_transform
    exact if_neg h
  · unfold scaler_transform
    rw [if_pos h]
    refine ⟨_, rfl, ?_⟩
    rcases h with ⟨h1, h2⟩
    rw [List.length_zipWith, List.length_zip]
    omega
  · have hst : scaler_transform st.scaler_mean st.scaler_scale
        (create_features d).1 =
        Except.error
          "X has a different number of features than StandardScaler is expecting" := by
      unfold scaler_transform
      rw [if_neg]
      intro hcon
      rw [create_features_fst_length] at hcon
      exact hmis hcon.1.symm
    simp [predict_price_movement, manual_request, hload, run_inference,
      hval, hst]

/-- C9 witness: a loaded state whose fitted scaler has one entry; the
scenario observation's 15 features cannot be scaled, and a concrete
mismatched call to the adapter fails. -/
theorem C9_scaler_mismatch_witness :
    (stShortScaler.model_loaded = true ∧
      validate_ohlcv_data obsScenario = true ∧
      stShortScaler.scaler_mean.length ≠ 15) ∧
    ((¬ (([ (3 : ℚ), 4 ]).length = ([ (0 : ℚ) ]).length ∧
          ([ (3 : ℚ), 4 ]).length = ([ (1 : ℚ) ]).length) →
       scaler_transform [0] [1] [3, 4] =
         Except.error
           "X has a different number of features than StandardScaler is expecting") ∧
     (([ (3 : ℚ), 4 ]).length = ([ (0 : ℚ) ]).length ∧
        ([ (3 : ℚ), 4 ]).length = ([ (1 : ℚ) ]).length →
       ∃ w, scaler_transform [0] [1] [3, 4] = Except.ok w ∧
         w.length = ([ (3 : ℚ), 4 ]).length) ∧
     (predict_price_movement stShortScaler fetch_unavailable
         (manual_request obsScenario)).1 =
       Except.error PredErr.internalError ∧
     PredErr.internalError ≠ PredErr.invalidOHLCV ∧
     PredErr.internalError.status_code = 500 ∧
     PredErr.invalidOHLCV.status_code = 400) :=
  ⟨⟨rfl, by norm_num [validate_ohlcv_data, obsScenario], by decide⟩,
   C9_scaler_mismatch [0] [1] [3, 4] stShortScaler fetch_unavailable
     obsScenario rfl (by norm_num [validate_ohlcv_data, obsScenario])
     (by decide)⟩
